import Mathlib

/-!
Shallow embedding of the `PayNowComponent` from
`src/pay-now/pay-now.component.ts`: its view state, the two operations
`onGetDetails` (account lookup) and `onProceedToPay` (payment initiation),
the input sanitizer `restrictToNumber` and the predicate
`isPhoneNumberValid`, together with theorems checking the specification's
claims about them.

JavaScript conventions are made explicit: optional / possibly-`undefined`
fields become `Option`, string truthiness (`""` and `undefined` are falsy)
becomes explicit tests, `x || d` on strings becomes `jsOr`, and the
`DomSanitizer.bypassSecurityTrustHtml` wrapping is modelled by a tagged
message type distinguishing plain text from trusted markup.
-/

/-- An error message shown to the user: either plain text or trusted
markup (the code wraps the latter in `bypassSecurityTrustHtml`). -/
inductive Msg
  | plain (s : String)
  | markup (s : String)
deriving DecidableEq, Repr

/-- The display record built by a successful lookup
(`this.consumerDetails` in the component). Amounts are modelled as
rationals. -/
structure ConsumerDetails where
  name : String
  dueDate : String
  amount : ℚ
deriving DecidableEq, Repr

/-- The component's mutable fields:
`accountNumber`, `phoneNumber`, `consumerDetails`, `errorMessage`,
`isLoading`. -/
structure ViewState where
  accountNumber : String
  phoneNumber : String
  consumerDetails : Option ConsumerDetails
  errorMessage : Option Msg
  isLoading : Bool
deriving DecidableEq, Repr

/-- JavaScript `o || d` for a possibly-missing string `o`: the default is
used when the string is absent (`undefined`) or empty (both falsy). -/
def jsOr (o : Option String) (d : String) : String :=
  match o with
  | some s => if s = "" then d else s
  | none => d

/-- JavaScript truthiness of a possibly-missing string: `undefined` and
`""` are falsy, every other string is truthy. -/
def jsTruthyStr (o : Option String) : Bool :=
  match o with
  | some s => !(s = "")
  | none => false

/-- Numeric value of a list of decimal digit characters. -/
def digitsToNat (ds : List Char) : Nat :=
  ds.foldl (fun a c => 10 * a + (c.toNat - 48)) 0

/-- Model of JavaScript `parseFloat` on decimal notation, returning `none`
for `NaN`: skip leading whitespace, read an optional sign, an integer
part, an optional fractional part and an optional exponent; fail when no
digit was read before the exponent. (The `Infinity` literal, which no
input of this program produces, is also mapped to `none`.) -/
def parseFloat (s : String) : Option ℚ :=
  let cs := s.data.dropWhile Char.isWhitespace
  let (sign, cs) : ℚ × List Char :=
    match cs with
    | '-' :: r => (-1, r)
    | '+' :: r => (1, r)
    | _ => (1, cs)
  let ip := cs.takeWhile Char.isDigit
  let cs := cs.dropWhile Char.isDigit
  let (fp, cs) : List Char × List Char :=
    match cs with
    | '.' :: r => (r.takeWhile Char.isDigit, r.dropWhile Char.isDigit)
    | _ => ([], cs)
  if ip = [] ∧ fp = [] then none
  else
    let mantissa : ℚ := (digitsToNat ip : ℚ) + (digitsToNat fp : ℚ) / ((10 : ℚ) ^ fp.length)
    let e : ℤ :=
      match cs with
      | c :: r =>
        if c = 'e' ∨ c = 'E' then
          let (es, r2) : ℤ × List Char :=
            match r with
            | '-' :: r2 => (-1, r2)
            | '+' :: r2 => (1, r2)
            | _ => (1, r)
          let ed := r2.takeWhile Char.isDigit
          if ed = [] then 0 else es * (digitsToNat ed : ℤ)
        else 0
      | [] => 0
    some (sign * mantissa * (10 : ℚ) ^ e)

/-- `customerDetails` object inside a lookup payload. -/
structure CustomerDetails where
  name : Option String
  phoneNumber : Option String
deriving DecidableEq, Repr

/-- `payload` object inside a lookup response. -/
structure Payload where
  customerDetails : Option CustomerDetails
  dueDate : Option String
  totalAmount : Option String
deriving DecidableEq, Repr

/-- `data` object of a lookup (GET) response. -/
structure GetData where
  payload : Option Payload
deriving DecidableEq, Repr

/-- Body of a lookup (GET) response. -/
structure GetResponse where
  message : Option String
  data : Option GetData
deriving DecidableEq, Repr

/-- The error object handed to an rxjs `error` callback, as the component
reads it: `name`, `status`, `message`, each possibly absent. -/
structure HttpError where
  name : Option String
  status : Option Int
  message : Option String
deriving DecidableEq, Repr

/-- How an issued HTTP request terminates: a response delivered to the
`next` callback (followed by `complete`), or an error delivered to the
`error` callback (timeout, unreachable, HTTP failure status, ...). -/
inductive LookupOutcome
  | success (r : GetResponse)
  | failure (e : HttpError)
deriving DecidableEq, Repr

/-- Which of the two subscription callbacks handled the outcome:
`next` (followed by `complete`) or `error`. -/
inductive HandlerKind
  | nextComplete
  | errorCallback
deriving DecidableEq, Repr

/-- Error classification of `onGetDetails`'s `error` callback:
timeout, status 0, status 401/403, otherwise generic with the error's own
message text when available. -/
def lookupErrorMessage (e : HttpError) : String :=
  if e.name = some "TimeoutError" then
    "Request timed out. Please try again or check your network."
  else if e.status = some 0 then
    "CORS error: Unable to reach the server. Please check your network or contact support."
  else if e.status = some 401 ∨ e.status = some 403 then
    "Authorization error: Invalid or expired token. Please contact support."
  else
    "Failed to fetch details: " ++ jsOr e.message "Unknown error"

/-- The state written just before the lookup request is issued:
`isLoading = true`, `errorMessage = null`, `consumerDetails = null`,
`phoneNumber = ''`. -/
def lookupRequestState (s : ViewState) : ViewState :=
  { s with isLoading := true, errorMessage := none, consumerDetails := none,
           phoneNumber := "" }

/-- The `next` callback of `onGetDetails`: reject when
`response.message !== 'SUCCESS'`, otherwise read `response.data?.payload`
and either build the consumer details (with `||` fallbacks on every
subfield) or report that no data was found. -/
def applyLookupSuccess (s : ViewState) (r : GetResponse) : ViewState :=
  if r.message ≠ some "SUCCESS" then
    { s with errorMessage := some (.plain (jsOr r.message "An error occurred while fetching details.")),
             consumerDetails := none }
  else
    match r.data.bind GetData.payload with
    | some payload =>
      { s with
        consumerDetails := some
          { name := jsOr (payload.customerDetails.bind CustomerDetails.name) "Unknown Name",
            dueDate := jsOr payload.dueDate "Unknown Due Date",
            amount := (payload.totalAmount.bind parseFloat).getD 0 },
        phoneNumber := jsOr (payload.customerDetails.bind CustomerDetails.phoneNumber) "",
        errorMessage := none }
    | none =>
      { s with errorMessage := some (.plain "No data found for this account number."),
               consumerDetails := none }

/-- The `error` callback of `onGetDetails`: classify the error, clear the
details and the loading flag. -/
def applyLookupError (s : ViewState) (e : HttpError) : ViewState :=
  { s with errorMessage := some (.plain (lookupErrorMessage e)),
           consumerDetails := none, isLoading := false }

/-- The `complete` callback: clear the loading flag. -/
def lookupComplete (s : ViewState) : ViewState :=
  { s with isLoading := false }

/-- Processing of a lookup outcome by the subscription: a response runs
`next` then `complete`; an error runs the `error` callback. Returns the
final state and which callback handled the outcome. -/
def runLookupRequest (s : ViewState) (o : LookupOutcome) : ViewState × HandlerKind :=
  match o with
  | .success r => (lookupComplete (applyLookupSuccess s r), .nextComplete)
  | .failure e => (applyLookupError s e, .errorCallback)

/-- Result of invoking an operation: the final view state, whether a
network request was issued, and (when one was) which callback handled its
outcome. -/
structure LookupResult where
  state : ViewState
  networkCall : Bool
  handler : Option HandlerKind
deriving DecidableEq, Repr

/-- `onGetDetails()`: local validation on an empty (falsy) account number,
the `isLoading` re-entrance guard, then the GET request whose outcome `o`
is processed by the subscription callbacks. -/
def onGetDetails (s : ViewState) (o : LookupOutcome) : LookupResult :=
  if s.accountNumber = "" then
    { state := { s with errorMessage := some (.plain "Please enter an account number"),
                        consumerDetails := none },
      networkCall := false, handler := none }
  else if s.isLoading then
    { state := s, networkCall := false, handler := none }
  else
    let (s2, h) := runLookupRequest (lookupRequestState s) o
    { state := s2, networkCall := true, handler := some h }

/-- `get isPhoneNumberValid()`: truthy-empty phone numbers are valid, and
otherwise the phone number must match `/^\d{10}$/`, i.e. be exactly ten
decimal digits. -/
def isPhoneNumberValid (phoneNumber : String) : Bool :=
  phoneNumber = "" || (phoneNumber.length == 10 && phoneNumber.data.all Char.isDigit)

/-- `data` object of a payment (POST) response. -/
structure PostData where
  link : Option String
deriving DecidableEq, Repr

/-- Body of a payment (POST) response. -/
structure PostResponse where
  message : Option String
  data : Option PostData
deriving DecidableEq, Repr

/-- Outcome of the POST request of `onProceedToPay`. -/
inductive PayOutcome
  | success (r : PostResponse)
  | failure (e : HttpError)
deriving DecidableEq, Repr

/-- The request body built by `onProceedToPay`: `name`, `fileNumber` and
`amount` always; `number` only when the phone number is truthy and
`isPhoneNumberValid` holds. -/
structure PaymentPayload where
  name : String
  fileNumber : String
  amount : ℚ
  number : Option String
deriving DecidableEq, Repr

/-- Builds the payment request body from the current view state and its
(non-null) consumer details. -/
def buildPaymentPayload (s : ViewState) (d : ConsumerDetails) : PaymentPayload :=
  { name := d.name, fileNumber := s.accountNumber, amount := d.amount,
    number := if s.phoneNumber ≠ "" ∧ isPhoneNumberValid s.phoneNumber then
                some s.phoneNumber
              else none }

/-- What happened to the eagerly opened browser tab by the time the
operation finished: never opened, navigated to a parsed URL, or closed. -/
inductive TabResult
  | noTab
  | navigated (url : String)
  | closed
deriving DecidableEq, Repr

/-- Result of invoking `onProceedToPay`: final view state, whether the
POST was issued, the fate of the opened tab, and which callback handled
the outcome when a request was issued. -/
structure PayResult where
  state : ViewState
  networkCall : Bool
  tab : TabResult
  handler : Option HandlerKind
deriving DecidableEq, Repr

/-- The popup-blocked message (trusted markup with a fallback anchor). -/
def popupBlockedMessage : String :=
  "Popup blocked. Please allow popups in Safari (Settings > Safari > Block Pop-ups > Off) and try again, or <a href=\"#\" class=\"fallback-link\">click here</a> to proceed with payment."

/-- The message shown when the returned payment link fails URL parsing:
trusted markup embedding the raw link text as the href of a fallback
anchor. -/
def invalidPaymentURLMessage (link : String) : String :=
  "Invalid payment URL. Please try again or <a href=\"" ++ link ++ "\" class=\"fallback-link\">click here</a> to proceed with payment."

/-- Error classification of `onProceedToPay`'s `error` callback; the whole
message is passed through `bypassSecurityTrustHtml` by the code. -/
def payErrorMessage (e : HttpError) : String :=
  if e.name = some "TimeoutError" then
    "Payment request timed out. Please try again."
  else if e.status = some 0 then
    "Unable to reach the payment server. Please check your network, allow popups in Safari (Settings > Safari > Block Pop-ups > Off), or <a href=\"#\" class=\"fallback-link\">click here</a> to proceed."
  else if e.status = some 401 ∨ e.status = some 403 then
    "Authorization error: Unable to process payment. Please contact support."
  else
    "Failed to initiate payment: " ++ jsOr e.message "Unknown error"

/-- `onProceedToPay()`: guard on null consumer details, the `isLoading`
re-entrance guard, synchronous `window.open` (blocked when
`popupAllowed = false`), then the POST request. On a response, navigate
the tab when `message === 'Success'`, `data?.link` is truthy and `new
URL(link)` parses (`parseURL` models the platform's URL parser, returning
the parsed URL's string form); close the tab and report otherwise. On an
error, close the tab and classify the error. Every completed request
clears the loading flag. -/
def onProceedToPay (parseURL : String → Option String) (s : ViewState)
    (popupAllowed : Bool) (o : PayOutcome) : PayResult :=
  match s.consumerDetails with
  | none =>
    { state := { s with errorMessage := some (.plain "No consumer details available to proceed with payment.") },
      networkCall := false, tab := .noTab, handler := none }
  | some _ =>
    if s.isLoading then
      { state := s, networkCall := false, tab := .noTab, handler := none }
    else
      let s1 := { s with isLoading := true, errorMessage := none }
      if !popupAllowed then
        { state := { s1 with errorMessage := some (.markup popupBlockedMessage),
                             isLoading := false },
          networkCall := false, tab := .noTab, handler := none }
      else
        match o with
        | .success r =>
          if r.message = some "Success" ∧ jsTruthyStr (r.data.bind PostData.link) then
            let link := (r.data.bind PostData.link).getD ""
            match parseURL link with
            | some u =>
              { state := { s1 with isLoading := false },
                networkCall := true, tab := .navigated u, handler := some .nextComplete }
            | none =>
              { state := { s1 with errorMessage := some (.markup (invalidPaymentURLMessage link)),
                                   isLoading := false },
                networkCall := true, tab := .closed, handler := some .nextComplete }
          else
            { state := { s1 with errorMessage := some (.plain "Failed to generate payment link. Please try again."),
                                 isLoading := false },
              networkCall := true, tab := .closed, handler := some .nextComplete }
        | .failure e =>
          { state := { s1 with errorMessage := some (.markup (payErrorMessage e)),
                               isLoading := false },
            networkCall := true, tab := .closed, handler := some .errorCallback }

/-- JavaScript `value.replace(/[^0-9.]/g, '')`: keep only decimal digits
and the dot. -/
def jsNumFilter (cs : List Char) : List Char :=
  cs.filter (fun c => c.isDigit || c == '.')

/-- JavaScript `value.split('.')` on the character list: splitting on a
single dot separator, so `"" → [""]`, `"a.b" → ["a","b"]`,
`"a.." → ["a","",""]`. -/
def splitOnDot : List Char → List (List Char)
  | [] => [[]]
  | c :: cs =>
    if c = '.' then [] :: splitOnDot cs
    else
      match splitOnDot cs with
      | [] => [[c]]
      | p :: ps => (c :: p) :: ps

/-- `restrictToNumber` on the character list of the input value: filter to
digits and dots, then if more than two dot-separated parts remain keep
`parts[0] + '.' + parts[1]`, and if `parts[1]` is truthy with more than
two characters keep `parts[0] + '.' + parts[1].substring(0, 2)`. The
JavaScript `parts[1] && parts[1].length > 2` test is `(splitOnDot
value).getD 1 []` having length above two: an absent or empty `parts[1]`
is falsy and has length zero. -/
def restrictToNumberL (s : List Char) : List Char :=
  let value := jsNumFilter s
  let parts := splitOnDot value
  let value1 := if parts.length > 2 then parts.getD 0 [] ++ '.' :: parts.getD 1 [] else value
  if (parts.getD 1 []).length > 2 then
    parts.getD 0 [] ++ '.' :: (parts.getD 1 []).take 2
  else value1

/-- `restrictToNumber(event)`'s pure effect on the text field's value. -/
def restrictToNumber (s : String) : String :=
  ⟨restrictToNumberL s.data⟩

/-- The sanitizer as the specification phrases it: strip all characters
except digits and decimal points; if no decimal point remains the result
is that string; otherwise the result is the first integer segment, a
decimal point, and the first fractional segment truncated to at most two
digits. -/
def restrictToNumberSpecL (s : List Char) : List Char :=
  let f := jsNumFilter s
  match splitOnDot f with
  | [] => []
  | [p] => p
  | p :: q :: _ => p ++ '.' :: q.take 2

/-- String form of `restrictToNumberSpecL`. -/
def restrictToNumberSpec (s : String) : String :=
  ⟨restrictToNumberSpecL s.data⟩

theorem splitOnDot_ne_nil (cs : List Char) : splitOnDot cs ≠ [] := by
  induction cs with
  | nil => simp [splitOnDot]
  | cons c cs ih =>
    simp only [splitOnDot]
    split
    · simp
    · cases h : splitOnDot cs with
      | nil => simp
      | cons p ps => simp

theorem splitOnDot_single {cs p : List Char} (h : splitOnDot cs = [p]) : cs = p := by
  induction cs generalizing p with
  | nil => simpa [splitOnDot] using h.symm
  | cons c cs ih =>
    simp only [splitOnDot] at h
    split at h
    · rename_i hc
      obtain ⟨h1, h2⟩ := List.cons.injEq _ _ _ _ ▸ h
      exact absurd h2 (splitOnDot_ne_nil cs)
    · rename_i hc
      cases hs : splitOnDot cs with
      | nil => exact absurd hs (splitOnDot_ne_nil cs)
      | cons q qs =>
        rw [hs] at h
        obtain ⟨h1, h2⟩ := List.cons.injEq _ _ _ _ ▸ h
        subst h2
        have : cs = q := ih hs
        simp [← h1, this]

theorem splitOnDot_pair {cs p q : List Char} (h : splitOnDot cs = [p, q]) :
    cs = p ++ '.' :: q := by
  induction cs generalizing p q with
  | nil => simp [splitOnDot] at h
  | cons c cs ih =>
    simp only [splitOnDot] at h
    split at h
    · rename_i hc
      obtain ⟨h1, h2⟩ := List.cons.injEq _ _ _ _ ▸ h
      have : cs = q := splitOnDot_single h2
      simp [hc, ← h1, this]
    · rename_i hc
      cases hs : splitOnDot cs with
      | nil => exact absurd hs (splitOnDot_ne_nil cs)
      | cons r rs =>
        rw [hs] at h
        obtain ⟨h1, h2⟩ := List.cons.injEq _ _ _ _ ▸ h
        subst h2
        have : cs = r ++ '.' :: q := ih hs
        simp [← h1, this]

theorem restrictToNumberL_eq_spec (s : List Char) :
    restrictToNumberL s = restrictToNumberSpecL s := by
  unfold restrictToNumberL restrictToNumberSpecL
  cases h : splitOnDot (jsNumFilter s) with
  | nil => exact absurd h (splitOnDot_ne_nil _)
  | cons p ps =>
    cases ps with
    | nil =>
      have hs : jsNumFilter s = p := splitOnDot_single h
      rw [hs] at h ⊢
      simp [h]
    | cons q qs =>
      cases qs with
      | nil =>
        have hs : jsNumFilter s = p ++ '.' :: q := splitOnDot_pair h
        by_cases hq : q.length > 2
        · simp [h, hq]
        · have ht : q.take 2 = q := List.take_of_length_le (by omega)
          rw [hs] at h ⊢
          simp [h, hq, ht]
      | cons r rs =>
        by_cases hq : q.length > 2
        · simp [h, hq]
        · have : q.take 2 = q := List.take_of_length_le (by omega)
          simp [h, hq, this]

/-- Evaluation of the modelled `parseFloat` on the amount string of the
specification's worked example. -/
theorem parseFloat_4250 : parseFloat "42.50" = some (42.5 : ℚ) := by
  have h : parseFloat "42.50" =
      some (1 * ((digitsToNat ['4', '2'] : ℚ) + (digitsToNat ['5', '0'] : ℚ) / (10 : ℚ) ^ (2 : ℕ)) *
        (10 : ℚ) ^ (0 : ℤ)) := rfl
  rw [h, show digitsToNat ['4', '2'] = 42 from rfl, show digitsToNat ['5', '0'] = 50 from rfl]
  norm_num

/-- C6: the amount sanitizer is a pure string function that strips all
characters except digits and decimal points, keeps only the first integer
segment plus the first fractional segment when several decimal points are
present, and truncates the fractional segment to at most two digits; in
particular `"12.3.45" → "12.3"`, `"12.345" → "12.34"` and
`"abc12.5xyz" → "12.5"`. -/
theorem restrictToNumber_meets_spec :
    (∀ s : String, restrictToNumber s = restrictToNumberSpec s) ∧
    restrictToNumber "12.3.45" = "12.3" ∧
    restrictToNumber "12.345" = "12.34" ∧
    restrictToNumber "abc12.5xyz" = "12.5" := by
  refine ⟨fun s => ?_, by decide, by decide, by decide⟩
  unfold restrictToNumber restrictToNumberSpec
  rw [restrictToNumberL_eq_spec]

/-- A non-empty phone number passes `isPhoneNumberValid` exactly when it
is ten decimal digits. -/
theorem isPhoneNumberValid_nonempty_iff (p : String) :
    (p ≠ "" ∧ isPhoneNumberValid p = true) ↔
      (p.length = 10 ∧ p.data.all Char.isDigit = true) := by
  constructor
  · rintro ⟨hne, hv⟩
    simp only [isPhoneNumberValid, Bool.or_eq_true, Bool.and_eq_true, decide_eq_true_eq,
      beq_iff_eq] at hv
    rcases hv with h | h
    · exact absurd h hne
    · exact h
  · rintro ⟨hlen, hdig⟩
    have hne : p ≠ "" := by
      intro h
      rw [h] at hlen
      simp at hlen
    refine ⟨hne, ?_⟩
    simp [isPhoneNumberValid, hlen, hdig]

/-- C8: the phone validity predicate holds iff the phone number is empty
or is exactly ten decimal digits (`""` and `"5551234567"` valid,
`"555123"` and `"55512345678"` invalid), and the payment request body
carries the `number` field iff the phone number is non-empty and valid,
i.e. iff it is exactly ten digits. -/
theorem isPhoneNumberValid_gates_payload :
    (∀ p : String,
      isPhoneNumberValid p = true ↔ p = "" ∨ (p.length = 10 ∧ p.data.all Char.isDigit = true)) ∧
    isPhoneNumberValid "" = true ∧
    isPhoneNumberValid "5551234567" = true ∧
    isPhoneNumberValid "555123" = false ∧
    isPhoneNumberValid "55512345678" = false ∧
    ∀ (s : ViewState) (d : ConsumerDetails),
      ((buildPaymentPayload s d).number = some s.phoneNumber ↔
        s.phoneNumber.length = 10 ∧ s.phoneNumber.data.all Char.isDigit = true) ∧
      ((buildPaymentPayload s d).number = none ↔
        ¬(s.phoneNumber.length = 10 ∧ s.phoneNumber.data.all Char.isDigit = true)) := by
  refine ⟨fun p => ?_, by decide, by decide, by decide, by decide, fun s d => ?_⟩
  · simp [isPhoneNumberValid, Bool.or_eq_true, Bool.and_eq_true, decide_eq_true_eq, beq_iff_eq]
  · unfold buildPaymentPayload
    by_cases h : s.phoneNumber ≠ "" ∧ isPhoneNumberValid s.phoneNumber = true
    · have h10 := (isPhoneNumberValid_nonempty_iff s.phoneNumber).mp h
      simp only [h, if_pos, h10]
      constructor
      · simp [h.1]
      · simp [h10, h.1]
    · have h10 : ¬(s.phoneNumber.length = 10 ∧ s.phoneNumber.data.all Char.isDigit = true) :=
        fun hc => h ((isPhoneNumberValid_nonempty_iff s.phoneNumber).mpr hc)
      simp only [h, if_neg, h10]
      constructor
      · simp [h10]
      · simp [h10]

/-- C1 counterexample: with `isLoading = true` but an empty account
number, invoking the lookup still mutates the state (the local-validation
branch runs before the `isLoading` guard): `errorMessage` is overwritten
and `consumerDetails` is cleared, so the state is not left unchanged. -/
theorem loading_lookup_not_unchanged :
    (onGetDetails ⟨"", "", some ⟨"n", "d", 0⟩, none, true⟩
        (.failure ⟨none, none, none⟩)).networkCall = false ∧
    (onGetDetails ⟨"", "", some ⟨"n", "d", 0⟩, none, true⟩
        (.failure ⟨none, none, none⟩)).state ≠ ⟨"", "", some ⟨"n", "d", 0⟩, none, true⟩ := by
  refine ⟨rfl, fun h => ?_⟩
  have := congrArg ViewState.consumerDetails h
  simp [onGetDetails] at this

/-- C1 (amended): while `isLoading` is true, an invocation that passes the
operation's local pre-check (a non-empty account number for the lookup, a
non-null `consumerDetails` for the payment) issues no network call and
leaves the entire view state unchanged; an invocation failing the
pre-check still issues no network call but overwrites `errorMessage` (and,
for the lookup, clears `consumerDetails`). -/
theorem loading_guard_noop (s : ViewState) (o : LookupOutcome)
    (parseURL : String → Option String) (pu : Bool) (po : PayOutcome)
    (h : s.isLoading = true) :
    (s.accountNumber ≠ "" →
      onGetDetails s o = { state := s, networkCall := false, handler := none }) ∧
    (s.consumerDetails ≠ none →
      onProceedToPay parseURL s pu po =
        { state := s, networkCall := false, tab := .noTab, handler := none }) := by
  constructor
  · intro h2
    simp [onGetDetails, h, h2]
  · intro h2
    match hc : s.consumerDetails with
    | none => exact absurd hc h2
    | some d => simp [onProceedToPay, hc, h]

/-- Witness for `loading_guard_noop` at a concrete loading state. -/
theorem loading_guard_noop_witness :
    onGetDetails ⟨"A", "", some ⟨"n", "d", 0⟩, none, true⟩ (.failure ⟨none, none, none⟩) =
      { state := ⟨"A", "", some ⟨"n", "d", 0⟩, none, true⟩, networkCall := false,
        handler := none } ∧
    onProceedToPay (fun _ => none) ⟨"A", "", some ⟨"n", "d", 0⟩, none, true⟩ true
        (.failure ⟨none, none, none⟩) =
      { state := ⟨"A", "", some ⟨"n", "d", 0⟩, none, true⟩, networkCall := false,
        tab := .noTab, handler := none } := by
  have h := loading_guard_noop ⟨"A", "", some ⟨"n", "d", 0⟩, none, true⟩
    (.failure ⟨none, none, none⟩) (fun _ => none) true (.failure ⟨none, none, none⟩) rfl
  exact ⟨h.1 (by decide), h.2 (by simp)⟩

/-- C2 counterexample: a whitespace-only account number is truthy in
JavaScript, so `onGetDetails` does not raise the local-validation error
and does issue the network call. -/
theorem whitespace_account_issues_call :
    (onGetDetails ⟨" ", "", none, none, false⟩ (.failure ⟨none, none, none⟩)).networkCall = true ∧
    (onGetDetails ⟨" ", "", none, none, false⟩ (.failure ⟨none, none, none⟩)).state.errorMessage ≠
      some (.plain "Please enter an account number") := by
  constructor
  · rfl
  · simp [onGetDetails, runLookupRequest, applyLookupError, lookupErrorMessage, jsOr,
      lookupRequestState]

/-- C2 (amended): for the empty account identifier, invoking the lookup
sets the local-validation error message, clears `consumerDetails`, and
issues no network call (whitespace-only identifiers instead pass the guard
and issue the call). -/
theorem empty_account_local_validation (s : ViewState) (o : LookupOutcome)
    (h : s.accountNumber = "") :
    (onGetDetails s o).state.errorMessage = some (.plain "Please enter an account number") ∧
    (onGetDetails s o).state.consumerDetails = none ∧
    (onGetDetails s o).networkCall = false := by
  simp [onGetDetails, h]

/-- Witness for `empty_account_local_validation` on the empty identifier. -/
theorem empty_account_local_validation_witness :
    (onGetDetails ⟨"", "5551234567", none, some (.plain "old"), false⟩
        (.failure ⟨none, none, none⟩)).state.errorMessage =
      some (.plain "Please enter an account number") ∧
    (onGetDetails ⟨"", "5551234567", none, some (.plain "old"), false⟩
        (.failure ⟨none, none, none⟩)).state.consumerDetails = none ∧
    (onGetDetails ⟨"", "5551234567", none, some (.plain "old"), false⟩
        (.failure ⟨none, none, none⟩)).networkCall = false :=
  empty_account_local_validation ⟨"", "5551234567", none, some (.plain "old"), false⟩
    (.failure ⟨none, none, none⟩) rfl

/-- C9: whenever the lookup passes both guards (non-empty account number
and `isLoading` false), it resets `phoneNumber` to the empty string before
the request is sent, so a previously fetched phone number is discarded
even when the new lookup ends in the error callback. -/
theorem lookup_resets_phone (s : ViewState) (e : HttpError)
    (h1 : s.accountNumber ≠ "") (h2 : s.isLoading = false) :
    (lookupRequestState s).phoneNumber = "" ∧
    (onGetDetails s (.failure e)).networkCall = true ∧
    (onGetDetails s (.failure e)).state.phoneNumber = "" := by
  refine ⟨rfl, ?_, ?_⟩ <;>
    simp [onGetDetails, h1, h2, runLookupRequest, applyLookupError, lookupRequestState]

/-- Witness for `lookup_resets_phone`: a stored phone number is gone after
a failed refresh. -/
theorem lookup_resets_phone_witness :
    (lookupRequestState ⟨"A", "5551234567", none, none, false⟩).phoneNumber = "" ∧
    (onGetDetails ⟨"A", "5551234567", none, none, false⟩
        (.failure ⟨some "TimeoutError", none, none⟩)).networkCall = true ∧
    (onGetDetails ⟨"A", "5551234567", none, none, false⟩
        (.failure ⟨some "TimeoutError", none, none⟩)).state.phoneNumber = "" :=
  lookup_resets_phone ⟨"A", "5551234567", none, none, false⟩
    ⟨some "TimeoutError", none, none⟩ (by decide) rfl

/-- C10: after any terminating lookup invocation that is not the
re-entrance no-op (local validation failure, success, server rejection,
missing payload, or transport error), at most one of `consumerDetails` and
`errorMessage` is non-null. -/
theorem lookup_details_error_exclusive (s : ViewState) (o : LookupOutcome)
    (h : s.accountNumber = "" ∨ s.isLoading = false) :
    (onGetDetails s o).state.consumerDetails = none ∨
    (onGetDetails s o).state.errorMessage = none := by
  by_cases ha : s.accountNumber = ""
  · left
    simp [onGetDetails, ha]
  · have hl : s.isLoading = false := h.resolve_left ha
    cases o with
    | success r =>
      by_cases hm : r.message ≠ some "SUCCESS"
      · left
        simp [onGetDetails, ha, hl, runLookupRequest, lookupComplete, applyLookupSuccess, hm]
      · cases hp : (r.data.bind GetData.payload) with
        | some payload =>
          right
          simp [onGetDetails, ha, hl, runLookupRequest, lookupComplete, applyLookupSuccess,
            hm, hp]
        | none =>
          left
          simp [onGetDetails, ha, hl, runLookupRequest, lookupComplete, applyLookupSuccess,
            hm, hp]
    | failure e =>
      left
      simp [onGetDetails, ha, hl, runLookupRequest, applyLookupError]

/-- Witness for `lookup_details_error_exclusive` on a server rejection. -/
theorem lookup_details_error_exclusive_witness :
    (onGetDetails ⟨"A", "", none, none, false⟩
        (.success ⟨some "FAILED", none⟩)).state.consumerDetails = none ∨
    (onGetDetails ⟨"A", "", none, none, false⟩
        (.success ⟨some "FAILED", none⟩)).state.errorMessage = none :=
  lookup_details_error_exclusive ⟨"A", "", none, none, false⟩
    (.success ⟨some "FAILED", none⟩) (Or.inr rfl)

/-- C4: every run of either operation that reaches the point of issuing a
network request ends with `isLoading = false`, whatever the outcome
(success, server rejection, timeout or any transport error), and exactly
one of the `next`/`complete` pair and the `error` callback handles the
outcome: the handler is `nextComplete` exactly for responses and
`errorCallback` exactly for errors. -/
theorem request_completion_clears_loading (s : ViewState) (o : LookupOutcome)
    (parseURL : String → Option String) (po : PayOutcome) (h2 : s.isLoading = false) :
    (s.accountNumber ≠ "" →
      (onGetDetails s o).networkCall = true ∧
      (onGetDetails s o).state.isLoading = false ∧
      ((onGetDetails s o).handler = some .nextComplete ↔ ∃ r, o = .success r) ∧
      ((onGetDetails s o).handler = some .errorCallback ↔ ∃ e, o = .failure e)) ∧
    (s.consumerDetails ≠ none →
      (onProceedToPay parseURL s true po).networkCall = true ∧
      (onProceedToPay parseURL s true po).state.isLoading = false ∧
      ((onProceedToPay parseURL s true po).handler = some .nextComplete ↔
        ∃ r, po = .success r) ∧
      ((onProceedToPay parseURL s true po).handler = some .errorCallback ↔
        ∃ e, po = .failure e)) := by
  constructor
  · intro h1
    cases o with
    | success r =>
      refine ⟨?_, ?_, ?_, ?_⟩ <;>
        simp [onGetDetails, h1, h2, runLookupRequest, lookupComplete]
    | failure e =>
      refine ⟨?_, ?_, ?_, ?_⟩ <;>
        simp [onGetDetails, h1, h2, runLookupRequest, applyLookupError]
  · intro hd
    match hc : s.consumerDetails with
    | none => exact absurd hc hd
    | some d =>
      cases po with
      | success r =>
        by_cases hm : r.message = some "Success" ∧ jsTruthyStr (r.data.bind PostData.link) = true
        · cases hp : parseURL ((r.data.bind PostData.link).getD "") with
          | some u =>
            refine ⟨?_, ?_, ?_, ?_⟩ <;> simp [onProceedToPay, hc, h2, hm, hp]
          | none =>
            refine ⟨?_, ?_, ?_, ?_⟩ <;> simp [onProceedToPay, hc, h2, hm, hp]
        · refine ⟨?_, ?_, ?_, ?_⟩ <;> simp [onProceedToPay, hc, h2, hm]
      | failure e =>
        refine ⟨?_, ?_, ?_, ?_⟩ <;> simp [onProceedToPay, hc, h2]

/-- Witness for `request_completion_clears_loading` at concrete inputs. -/
theorem request_completion_clears_loading_witness :
    (onGetDetails ⟨"A", "", some ⟨"n", "d", 0⟩, none, false⟩
        (.failure ⟨none, some 0, none⟩)).state.isLoading = false ∧
    (onProceedToPay (fun _ => none) ⟨"A", "", some ⟨"n", "d", 0⟩, none, false⟩ true
        (.failure ⟨none, some 0, none⟩)).state.isLoading = false := by
  have h := request_completion_clears_loading ⟨"A", "", some ⟨"n", "d", 0⟩, none, false⟩
    (.failure ⟨none, some 0, none⟩) (fun _ => none) (.failure ⟨none, some 0, none⟩) rfl
  exact ⟨(h.1 (by decide)).2.1, (h.2 (by simp)).2.1⟩

/-- The lookup response of the specification's worked example. -/
def janeResponse : GetResponse :=
  ⟨some "SUCCESS",
    some ⟨some ⟨some ⟨some "Jane", some "5551234567"⟩, some "2025-01-01", some "42.50"⟩⟩⟩

/-- C3: the worked example `{ message: "SUCCESS", data: { payload: {
customerDetails: { name: "Jane", phoneNumber: "5551234567" }, dueDate:
"2025-01-01", totalAmount: "42.50" } } }` yields exactly the consumer
details `{ name: "Jane", dueDate: "2025-01-01", amount: 42.5 }`, phone
number `"5551234567"` and a null error message; and on any successful
payload, each missing subfield is replaced by its fallback default
(`'Unknown Name'`, `'Unknown Due Date'`, amount `0`, phone `''`). -/
theorem lookup_success_mapping (s : ViewState) (h1 : s.accountNumber ≠ "")
    (h2 : s.isLoading = false) :
    ((onGetDetails s (.success janeResponse)).state.consumerDetails =
        some ⟨"Jane", "2025-01-01", (42.5 : ℚ)⟩ ∧
      (onGetDetails s (.success janeResponse)).state.phoneNumber = "5551234567" ∧
      (onGetDetails s (.success janeResponse)).state.errorMessage = none) ∧
    ∀ pl : Payload,
      (pl.customerDetails.bind CustomerDetails.name = none →
        (onGetDetails s (.success ⟨some "SUCCESS", some ⟨some pl⟩⟩)).state.consumerDetails.map
          ConsumerDetails.name = some "Unknown Name") ∧
      (pl.dueDate = none →
        (onGetDetails s (.success ⟨some "SUCCESS", some ⟨some pl⟩⟩)).state.consumerDetails.map
          ConsumerDetails.dueDate = some "Unknown Due Date") ∧
      (pl.totalAmount = none →
        (onGetDetails s (.success ⟨some "SUCCESS", some ⟨some pl⟩⟩)).state.consumerDetails.map
          ConsumerDetails.amount = some 0) ∧
      (pl.customerDetails.bind CustomerDetails.phoneNumber = none →
        (onGetDetails s (.success ⟨some "SUCCESS", some ⟨some pl⟩⟩)).state.phoneNumber = "") := by
  constructor
  · refine ⟨?_, ?_, ?_⟩ <;>
      simp [onGetDetails, h1, h2, runLookupRequest, lookupComplete, applyLookupSuccess,
        janeResponse, jsOr, parseFloat_4250]
  · intro pl
    refine ⟨?_, ?_, ?_, ?_⟩ <;> intro hmiss <;>
      simp [onGetDetails, h1, h2, runLookupRequest, lookupComplete, applyLookupSuccess,
        hmiss, jsOr]

/-- Witness for `lookup_success_mapping` on a concrete idle state. -/
theorem lookup_success_mapping_witness :
    (onGetDetails ⟨"ACC", "", none, none, false⟩
        (.success janeResponse)).state.consumerDetails =
      some ⟨"Jane", "2025-01-01", (42.5 : ℚ)⟩ ∧
    (onGetDetails ⟨"ACC", "", none, none, false⟩
        (.success janeResponse)).state.phoneNumber = "5551234567" := by
  have h := lookup_success_mapping ⟨"ACC", "", none, none, false⟩ (by decide) rfl
  exact ⟨h.1.1, h.1.2.1⟩

/-- C7 counterexample: a response whose `message` is present but empty is
not equal to `"SUCCESS"`, yet the displayed error is the generic fallback,
not the server-provided message, because the empty string is falsy in
`response.message || '...'`. -/
theorem lookup_empty_message_fallback :
    (some "" : Option String) ≠ some "SUCCESS" ∧
    (onGetDetails ⟨"A", "", none, none, false⟩
        (.success ⟨some "", none⟩)).state.errorMessage =
      some (.plain "An error occurred while fetching details.") ∧
    (onGetDetails ⟨"A", "", none, none, false⟩
        (.success ⟨some "", none⟩)).state.errorMessage ≠ some (.plain "") := by
  refine ⟨by decide, ?_, ?_⟩ <;>
    simp [onGetDetails, runLookupRequest, lookupComplete, applyLookupSuccess, jsOr]

/-- C7 (amended): for a lookup response whose `message` is present,
non-empty and different from `"SUCCESS"`, `consumerDetails` becomes null
and the error message equals the server-provided message; the generic
fallback is used when the server message is absent or empty. -/
theorem lookup_server_message_display (s : ViewState) (r : GetResponse)
    (h1 : s.accountNumber ≠ "") (h2 : s.isLoading = false)
    (h3 : r.message ≠ some "SUCCESS") :
    (onGetDetails s (.success r)).state.consumerDetails = none ∧
    (∀ m, r.message = some m → m ≠ "" →
      (onGetDetails s (.success r)).state.errorMessage = some (.plain m)) ∧
    (r.message = none ∨ r.message = some "" →
      (onGetDetails s (.success r)).state.errorMessage =
        some (.plain "An error occurred while fetching details.")) := by
  refine ⟨?_, ?_, ?_⟩
  · simp [onGetDetails, h1, h2, runLookupRequest, lookupComplete, applyLookupSuccess, h3]
  · intro m hm hne
    have hms : m ≠ "SUCCESS" := by
      rintro rfl
      exact h3 hm
    simp [onGetDetails, h1, h2, runLookupRequest, lookupComplete, applyLookupSuccess, h3,
      hm, jsOr, hne, hms]
  · intro hcase
    rcases hcase with hm | hm <;>
      simp [onGetDetails, h1, h2, runLookupRequest, lookupComplete, applyLookupSuccess, h3,
        hm, jsOr]

/-- Witness for `lookup_server_message_display` on the message
`"not found"`. -/
theorem lookup_server_message_display_witness :
    (onGetDetails ⟨"A", "", none, none, false⟩
        (.success ⟨some "not found", none⟩)).state.consumerDetails = none ∧
    (onGetDetails ⟨"A", "", none, none, false⟩
        (.success ⟨some "not found", none⟩)).state.errorMessage =
      some (.plain "not found") := by
  have h := lookup_server_message_display ⟨"A", "", none, none, false⟩
    ⟨some "not found", none⟩ (by decide) rfl (by decide)
  exact ⟨h.1, h.2.1 "not found" rfl (by decide)⟩

/-- C5 counterexample: the empty string fails URL parsing, yet a response
`{ message: "Success", data: { link: "" } }` takes the missing-link branch
(`response.data?.link` is falsy), so the error shown is the plain generic
failure message, not the trusted-markup message embedding the raw link. -/
theorem payment_empty_link_not_markup :
    (onProceedToPay (fun _ => none) ⟨"A", "", some ⟨"n", "d", 0⟩, none, false⟩ true
        (.success ⟨some "Success", some ⟨some ""⟩⟩)).tab = .closed ∧
    (onProceedToPay (fun _ => none) ⟨"A", "", some ⟨"n", "d", 0⟩, none, false⟩ true
        (.success ⟨some "Success", some ⟨some ""⟩⟩)).state.errorMessage =
      some (.plain "Failed to generate payment link. Please try again.") ∧
    (onProceedToPay (fun _ => none) ⟨"A", "", some ⟨"n", "d", 0⟩, none, false⟩ true
        (.success ⟨some "Success", some ⟨some ""⟩⟩)).state.errorMessage ≠
      some (.markup (invalidPaymentURLMessage "")) := by
  refine ⟨?_, ?_, ?_⟩ <;> simp [onProceedToPay, jsTruthyStr]

/-- C5 (amended): for a payment response whose `message` is `"Success"`
and whose `data.link` is a non-empty string that fails URL parsing, the
opened tab is closed, `isLoading` ends false, and the error message is
trusted markup embedding the raw unparsed link text as the href of the
fallback anchor (an empty link instead takes the missing-link branch with
the plain generic message, the tab still closed). -/
theorem payment_invalid_link_handling (parseURL : String → Option String)
    (s : ViewState) (r : PostResponse) (link : String)
    (hd : s.consumerDetails ≠ none) (h2 : s.isLoading = false)
    (hm : r.message = some "Success") (hl : r.data.bind PostData.link = some link)
    (hne : link ≠ "") (hp : parseURL link = none) :
    (onProceedToPay parseURL s true (.success r)).tab = .closed ∧
    (onProceedToPay parseURL s true (.success r)).state.isLoading = false ∧
    (onProceedToPay parseURL s true (.success r)).state.errorMessage =
      some (.markup (invalidPaymentURLMessage link)) ∧
    invalidPaymentURLMessage link =
      "Invalid payment URL. Please try again or <a href=\"" ++ link ++
        "\" class=\"fallback-link\">click here</a> to proceed with payment." := by
  match hc : s.consumerDetails with
  | none => exact absurd hc hd
  | some d =>
    refine ⟨?_, ?_, ?_, rfl⟩ <;>
      simp [onProceedToPay, hc, h2, hm, hl, jsTruthyStr, hne, hp]

/-- Witness for `payment_invalid_link_handling` on the raw link
`"not a url"`. -/
theorem payment_invalid_link_handling_witness :
    (onProceedToPay (fun _ => none) ⟨"A", "", some ⟨"n", "d", 0⟩, none, false⟩ true
        (.success ⟨some "Success", some ⟨some "not a url"⟩⟩)).tab = .closed ∧
    (onProceedToPay (fun _ => none) ⟨"A", "", some ⟨"n", "d", 0⟩, none, false⟩ true
        (.success ⟨some "Success", some ⟨some "not a url"⟩⟩)).state.errorMessage =
      some (.markup (invalidPaymentURLMessage "not a url")) := by
  have h := payment_invalid_link_handling (fun _ => none)
    ⟨"A", "", some ⟨"n", "d", 0⟩, none, false⟩ ⟨some "Success", some ⟨some "not a url"⟩⟩
    "not a url" (by simp) rfl rfl rfl (by decide) rfl
  exact ⟨h.1, h.2.2.1⟩
